import Mathlib

/-!
Shallow embedding of the OQS provider key-management layer
(`src/oqsprov/oqs_kmgmt.c`) and verification of its specification claims.

Key material is modelled as `List Nat` byte buffers; a nullable C pointer
becomes an `Option`; OpenSSL allocation outcomes become explicit `Bool`
oracle arguments where the code can fail to allocate.
-/

/-- `OSSL_KEYMGMT_SELECT_PRIVATE_KEY` (0x01). -/
def OSSL_KEYMGMT_SELECT_PRIVATE_KEY : Nat := 1

/-- `OSSL_KEYMGMT_SELECT_PUBLIC_KEY` (0x02). -/
def OSSL_KEYMGMT_SELECT_PUBLIC_KEY : Nat := 2

/-- `OSSL_KEYMGMT_SELECT_DOMAIN_PARAMETERS` (0x04). -/
def OSSL_KEYMGMT_SELECT_DOMAIN_PARAMETERS : Nat := 4

/-- `OSSL_KEYMGMT_SELECT_OTHER_PARAMETERS` (0x80). -/
def OSSL_KEYMGMT_SELECT_OTHER_PARAMETERS : Nat := 128

/-- `OSSL_KEYMGMT_SELECT_ALL_PARAMETERS` = DOMAIN | OTHER (0x84). -/
def OSSL_KEYMGMT_SELECT_ALL_PARAMETERS : Nat :=
  OSSL_KEYMGMT_SELECT_DOMAIN_PARAMETERS ||| OSSL_KEYMGMT_SELECT_OTHER_PARAMETERS

/-- `OSSL_KEYMGMT_SELECT_KEYPAIR` = PRIVATE | PUBLIC (0x03). -/
def OSSL_KEYMGMT_SELECT_KEYPAIR : Nat :=
  OSSL_KEYMGMT_SELECT_PRIVATE_KEY ||| OSSL_KEYMGMT_SELECT_PUBLIC_KEY

/-- OpenSSL parameter name `OSSL_PKEY_PARAM_PUB_KEY`. -/
def OSSL_PKEY_PARAM_PUB_KEY : String := "pub"

/-- OpenSSL parameter name `OSSL_PKEY_PARAM_PRIV_KEY`. -/
def OSSL_PKEY_PARAM_PRIV_KEY : String := "priv"

/-- OpenSSL parameter name `OSSL_PKEY_PARAM_ENCODED_PUBLIC_KEY`. -/
def OSSL_PKEY_PARAM_ENCODED_PUBLIC_KEY : String := "encoded-pub-key"

/-- OpenSSL parameter name `OSSL_PKEY_PARAM_PROPERTIES`. -/
def OSSL_PKEY_PARAM_PROPERTIES : String := "properties"

/-- `OSSL_PARAM_UTF8_STRING` data type tag. -/
def OSSL_PARAM_UTF8_STRING : Nat := 4

/-- `OSSL_PARAM_OCTET_STRING` data type tag. -/
def OSSL_PARAM_OCTET_STRING : Nat := 5

/-- One `OSSL_PARAM` entry: a name, a data-type tag, and the data bytes
(`data_size` is the length of `data`). -/
structure OSSL_PARAM where
  key : String
  data_type : Nat
  data : List Nat
  deriving Repr, DecidableEq

/-- `p->data_size` of an `OSSL_PARAM`. -/
def OSSL_PARAM.data_size (p : OSSL_PARAM) : Nat := p.data.length

/-- `OSSL_PARAM_locate`: first parameter with the given name; locating in a
NULL array (here the empty list) finds nothing. -/
def OSSL_PARAM_locate (params : List OSSL_PARAM) (k : String) : Option OSSL_PARAM :=
  params.find? (fun p => p.key == k)

/-- The `OQSX_KEY` struct fields used by `oqs_kmgmt.c`: algorithm name,
nullable public/private key buffers, the registry-derived buffer lengths,
and the optional property-query string (held as bytes). -/
structure OQSX_KEY where
  oqs_name : String
  pubkey : Option (List Nat)
  privkey : Option (List Nat)
  pubkeylen : Nat
  privkeylen : Nat
  propq : Option (List Nat)
  deriving Repr, DecidableEq

/-- `CRYPTO_memcmp(a, b, n) == 0`: the first `n` bytes of each buffer agree
(the source only calls it with `n` not exceeding either buffer's length). -/
def cryptoMemcmpEq (a b : List Nat) (n : Nat) : Bool :=
  a.take n == b.take n

/-- `oqsx_has` (oqs_kmgmt.c lines 58-78): NULL key yields 0; otherwise `ok`
starts at 1 (parameters are always present) and each requested key-part bit
demands the corresponding field. -/
def oqsx_has (keydata : Option OQSX_KEY) (selection : Nat) : Bool :=
  match keydata with
  | none => false
  | some key =>
    let ok := true
    let ok := if selection &&& OSSL_KEYMGMT_SELECT_PUBLIC_KEY != 0 then
        ok && key.pubkey.isSome
      else ok
    let ok := if selection &&& OSSL_KEYMGMT_SELECT_PRIVATE_KEY != 0 then
        ok && key.privkey.isSome
      else ok
    ok

/-- `oqsx_match` (oqs_kmgmt.c lines 80-110). Note the public-key branch:
`(key1->pubkey != NULL && key2->pubkey != NULL) || strcmp(...)` forces
`ok = 0` whenever BOTH public keys are present. -/
def oqsx_match (key1 key2 : OQSX_KEY) (selection : Nat) : Bool :=
  let ok := true
  let ok := if selection &&& OSSL_KEYMGMT_SELECT_DOMAIN_PARAMETERS != 0 then
      ok && (key1.oqs_name == key2.oqs_name)
    else ok
  let ok := if selection &&& OSSL_KEYMGMT_SELECT_PRIVATE_KEY != 0 then
      if (key1.privkey.isNone && key2.privkey.isSome)
          || (key1.privkey.isSome && key2.privkey.isNone)
          || !(key1.oqs_name == key2.oqs_name) then false
      else ok && (key1.privkey.isNone
          || cryptoMemcmpEq (key1.privkey.getD []) (key2.privkey.getD []) key1.privkeylen)
    else ok
  let ok := if selection &&& OSSL_KEYMGMT_SELECT_PUBLIC_KEY != 0 then
      if (key1.pubkey.isSome && key2.pubkey.isSome)
          || !(key1.oqs_name == key2.oqs_name) then false
      else ok && (key1.pubkey.isNone
          || cryptoMemcmpEq (key1.pubkey.getD []) (key2.pubkey.getD []) key1.pubkeylen)
    else ok
  ok

/-- Modelled from the spec: `oqsx_key_fromdata` is defined in `oqsx.c`, which
is not part of this source tree. Per spec 4.2, ImportFromRaw populates the
Key Object's fields from the named parameter set (`pub`/`priv` octet strings)
and fails when required parameters are absent or malformed; per spec 8, a
byte length differing from the registry-declared length fails with no
partial data. -/
def oqsx_key_fromdata (key : OQSX_KEY) (params : List OSSL_PARAM) : Option OQSX_KEY :=
  let ppub := OSSL_PARAM_locate params OSSL_PKEY_PARAM_PUB_KEY
  let ppriv := OSSL_PARAM_locate params OSSL_PKEY_PARAM_PRIV_KEY
  if ppub.isNone && ppriv.isNone then
    none
  else
    let step1 : Option OQSX_KEY :=
      match ppub with
      | none => some key
      | some p =>
        if p.data_type == OSSL_PARAM_OCTET_STRING && p.data.length == key.pubkeylen then
          some { key with pubkey := some p.data }
        else none
    match step1 with
    | none => none
    | some k1 =>
      match ppriv with
      | none => some k1
      | some p =>
        if p.data_type == OSSL_PARAM_OCTET_STRING && p.data.length == key.privkeylen then
          some { k1 with privkey := some p.data }
        else none

/-- `oqsx_import` (oqs_kmgmt.c lines 112-127): a NULL key fails; key material
is taken from the parameter set only when
`selection & OSSL_KEYMGMT_SELECT_ALL_PARAMETERS` is nonzero. Returns the
C return value together with the key object's state after the call. -/
def oqsx_import (keydata : Option OQSX_KEY) (selection : Nat)
    (params : List OSSL_PARAM) : Nat × Option OQSX_KEY :=
  match keydata with
  | none => (0, none)
  | some key =>
    if selection &&& OSSL_KEYMGMT_SELECT_ALL_PARAMETERS != 0 then
      match oqsx_key_fromdata key params with
      | some key2 => (1, some key2)
      | none => (0, some key)
    else (0, some key)

/-- Result of `oqsx_export`: the C return value and the list of parameter
sets delivered to the sink callback (one entry per invocation). -/
structure ExportResult where
  ret : Nat
  delivered : List (List OSSL_PARAM)
  deriving Repr, DecidableEq

/-- `oqsx_export` (oqs_kmgmt.c lines 129-171). `bldNewOk` and `bldToParamOk`
model the `OSSL_PARAM_BLD_new` / `OSSL_PARAM_BLD_to_param` allocations;
`setOctetOk` models `OSSL_PARAM_set_octet_string`; `cbRet` is the callback's
return value. The source locates `OSSL_PKEY_PARAM_PUB_KEY` and
`OSSL_PKEY_PARAM_PRIV_KEY` in the local `params` array while it is still
NULL (it is only assigned from the builder afterwards), so both locate
calls run over the empty array, nothing is ever pushed into the builder
`tmpl`, and the callback receives the empty parameter set produced from
the untouched builder. -/
def oqsx_export (keydata : Option OQSX_KEY) (selection : Nat)
    (bldNewOk bldToParamOk setOctetOk : Bool) (cbRet : Nat) : ExportResult :=
  match keydata with
  | none => { ret := 0, delivered := [] }
  | some _key =>
    if bldNewOk = false then { ret := 0, delivered := [] }
    else
      let setStepFailed : Bool :=
        if (selection &&& OSSL_KEYMGMT_SELECT_ALL_PARAMETERS != 0)
            || (selection &&& OSSL_KEYMGMT_SELECT_KEYPAIR != 0) then
          (match OSSL_PARAM_locate [] OSSL_PKEY_PARAM_PUB_KEY with
            | some _p => !setOctetOk
            | none => false)
          ||
          (match OSSL_PARAM_locate [] OSSL_PKEY_PARAM_PRIV_KEY with
            | some _p => !setOctetOk
            | none => false)
        else false
      if setStepFailed then { ret := 0, delivered := [] }
      else if bldToParamOk = false then { ret := 0, delivered := [] }
      else { ret := cbRet, delivered := [[]] }

/-- `set_property_query` (oqs_kmgmt.c lines 235-248): frees the old query,
then duplicates the new one; `strdupOk` models the `OPENSSL_strdup`
allocation. Returns the C result and the key's state. -/
def set_property_query (key : OQSX_KEY) (propq : List Nat) (strdupOk : Bool) :
    Nat × OQSX_KEY :=
  let key := { key with propq := none }
  if strdupOk then (1, { key with propq := some propq })
  else (0, key)

/-- The properties half of `oqsx_set_params` (oqs_kmgmt.c lines 267-273). -/
def oqsx_set_params_properties (key : OQSX_KEY) (params : List OSSL_PARAM)
    (strdupOk : Bool) : Nat × OQSX_KEY :=
  match OSSL_PARAM_locate params OSSL_PKEY_PARAM_PROPERTIES with
  | some p =>
    if p.data_type != OSSL_PARAM_UTF8_STRING then (0, key)
    else
      match set_property_query key p.data strdupOk with
      | (1, key2) => (1, key2)
      | (_, key2) => (0, key2)
  | none => (1, key)

/-- `oqsx_set_params` (oqs_kmgmt.c lines 250-276): if an
`encoded-pub-key` parameter is present, a `data_size` different from the
key's `pubkeylen` (or a non-octet-string value) fails immediately with the
key untouched; on success the public key is replaced and the private key is
cleared and freed (`OPENSSL_clear_free`, then `privkey = NULL`). Then the
`properties` parameter is processed. Returns the C result and the key's
state after the call. -/
def oqsx_set_params (key : OQSX_KEY) (params : List OSSL_PARAM)
    (strdupOk : Bool) : Nat × OQSX_KEY :=
  match OSSL_PARAM_locate params OSSL_PKEY_PARAM_ENCODED_PUBLIC_KEY with
  | some p =>
    if p.data_size != key.pubkeylen || p.data_type != OSSL_PARAM_OCTET_STRING then
      (0, key)
    else
      let key := { key with pubkey := some p.data }
      let key := { key with privkey := none }
      oqsx_set_params_properties key params strdupOk
  | none => oqsx_set_params_properties key params strdupOk

/-- `sizeof(OQSX_KEY *)` on the 64-bit targets the provider builds for. -/
def sizeof_OQSX_KEY_ptr : Nat := 8

/-- `oqsx_load` (oqs_kmgmt.c lines 343-356): the reference cell holds a
(possibly NULL) key pointer; when `reference_sz` equals the pointer size the
stored key is returned and the cell is nulled, otherwise NULL is returned
and the cell is untouched. Returns (returned key, cell state after). -/
def oqsx_load (reference : Option OQSX_KEY) (reference_sz : Nat) :
    Option OQSX_KEY × Option OQSX_KEY :=
  if reference_sz = sizeof_OQSX_KEY_ptr then
    (reference, none)
  else
    (none, reference)

/-- Buffer well-formedness: an absent buffer is fine; a present buffer has
exactly the declared length. -/
def bufLenOk (o : Option (List Nat)) (n : Nat) : Bool :=
  match o with
  | none => true
  | some bs => bs.length == n

/-- Spec 3 invariant for a Key Object over an algorithm registry `reg`
(name to (public length, private length)): the declared lengths come from
the registry entry for the algorithm name and any present buffer has the
declared length. -/
def keyWF (reg : String → Nat × Nat) (k : OQSX_KEY) : Bool :=
  (k.pubkeylen == (reg k.oqs_name).1) && (k.privkeylen == (reg k.oqs_name).2)
    && bufLenOk k.pubkey k.pubkeylen && bufLenOk k.privkey k.privkeylen

/-- When both buffers are present their bytes agree (vacuous otherwise). -/
def bothPresentBytesEq (a b : Option (List Nat)) : Bool :=
  match a, b with
  | some x, some y => x == y
  | _, _ => true

/-! Sample concrete objects used by witnesses. -/

/-- A sample key holding both a public and a private key. -/
def kSampleA : OQSX_KEY :=
  { oqs_name := "alg", pubkey := some [1, 2], privkey := some [3],
    pubkeylen := 2, privkeylen := 1, propq := none }

/-- A freshly constructed sample key of the same algorithm: empty buffers,
registry-derived lengths. -/
def kSampleFresh : OQSX_KEY :=
  { oqs_name := "alg", pubkey := none, privkey := none,
    pubkeylen := 2, privkeylen := 1, propq := none }

/-- A sample registry agreeing with `kSampleA` and `kSampleFresh`. -/
def regSample : String → Nat × Nat := fun _n => (2, 1)

/-- A well-formed encoded-public-key parameter matching `kSampleA`'s
declared public length. -/
def pSampleGoodEnc : OSSL_PARAM :=
  { key := OSSL_PKEY_PARAM_ENCODED_PUBLIC_KEY,
    data_type := OSSL_PARAM_OCTET_STRING, data := [7, 8] }

/-- An encoded-public-key parameter whose length (1) differs from
`kSampleA`'s declared public length (2). -/
def pSampleShortEnc : OSSL_PARAM :=
  { key := OSSL_PKEY_PARAM_ENCODED_PUBLIC_KEY,
    data_type := OSSL_PARAM_OCTET_STRING, data := [9] }

/-- A well-formed public-key parameter set for `kSampleFresh`. -/
def paramsSamplePub : List OSSL_PARAM :=
  [{ key := OSSL_PKEY_PARAM_PUB_KEY,
     data_type := OSSL_PARAM_OCTET_STRING, data := [5, 6] }]

/-- Parameter set carrying the well-formed encoded public key. -/
def paramsSampleGoodEnc : List OSSL_PARAM := [pSampleGoodEnc]

/-- Parameter set carrying the too-short encoded public key. -/
def paramsSampleShortEnc : List OSSL_PARAM := [pSampleShortEnc]

/-! ## Helper lemmas -/

/-- `oqsx_has` restricted to the private-key bit is presence of the
private key. -/
theorem oqsx_has_private_eq (k : OQSX_KEY) :
    oqsx_has (some k) OSSL_KEYMGMT_SELECT_PRIVATE_KEY = k.privkey.isSome := rfl

/-- Unfolding of `oqsx_match` at a private-key-only selection. -/
theorem oqsx_match_private_unfold (k1 k2 : OQSX_KEY) :
    oqsx_match k1 k2 OSSL_KEYMGMT_SELECT_PRIVATE_KEY =
      if (k1.privkey.isNone && k2.privkey.isSome)
          || (k1.privkey.isSome && k2.privkey.isNone)
          || !(k1.oqs_name == k2.oqs_name) then false
      else (k1.privkey.isNone
          || cryptoMemcmpEq (k1.privkey.getD []) (k2.privkey.getD []) k1.privkeylen) := rfl

/-- The properties half of `oqsx_set_params` never touches the private
key buffer. -/
theorem oqsx_set_params_properties_privkey (k : OQSX_KEY) (params : List OSSL_PARAM)
    (strdupOk : Bool) :
    ((oqsx_set_params_properties k params strdupOk).2).privkey = k.privkey := by
  unfold oqsx_set_params_properties
  cases OSSL_PARAM_locate params OSSL_PKEY_PARAM_PROPERTIES with
  | none => rfl
  | some p =>
    cases strdupOk <;>
      simp [set_property_query] <;>
        split <;> rfl

/-! ## Claims -/

/-- C9: `oqsx_has` on a NULL key handle returns 0 for every selection mask,
including a mask requesting only domain parameters. -/
theorem c9_has_null_false (selection : Nat) :
    oqsx_has none selection = false := rfl

/-- C5: for a non-null key, `oqsx_has` returns true iff every key-part bit
set in the mask has the corresponding field present; a domain-parameters-only
selection is always satisfied. -/
theorem c5_has_iff (k : OQSX_KEY) (selection : Nat) :
    (oqsx_has (some k) selection = true ↔
      ((selection &&& OSSL_KEYMGMT_SELECT_PUBLIC_KEY ≠ 0 → k.pubkey.isSome = true) ∧
       (selection &&& OSSL_KEYMGMT_SELECT_PRIVATE_KEY ≠ 0 → k.privkey.isSome = true))) ∧
    oqsx_has (some k) OSSL_KEYMGMT_SELECT_DOMAIN_PARAMETERS = true := by
  refine ⟨?_, rfl⟩
  simp only [oqsx_has]
  cases hpub : (selection &&& OSSL_KEYMGMT_SELECT_PUBLIC_KEY != 0) <;>
    cases hpriv : (selection &&& OSSL_KEYMGMT_SELECT_PRIVATE_KEY != 0) <;>
      simp_all [bne_iff_ne]

/-- C8: `oqsx_load` with the declared size equal to the size of a key
pointer returns the key stored in the reference cell and nulls the cell;
with any other declared size it returns NULL and leaves the cell unchanged. -/
theorem c8_load_transfer (cell : Option OQSX_KEY) (sz : Nat) :
    (sz = sizeof_OQSX_KEY_ptr → oqsx_load cell sz = (cell, none)) ∧
    (sz ≠ sizeof_OQSX_KEY_ptr → oqsx_load cell sz = (none, cell)) := by
  constructor <;> intro h <;> simp [oqsx_load, h]

/-- C8 witness at a concrete cell and the sizes 8 and 7. -/
theorem c8_load_transfer_witness :
    (8 : Nat) = sizeof_OQSX_KEY_ptr ∧ (7 : Nat) ≠ sizeof_OQSX_KEY_ptr ∧
    oqsx_load (some kSampleA) 8 = (some kSampleA, none) ∧
    oqsx_load (some kSampleA) 7 = (none, some kSampleA) :=
  ⟨by decide, by decide,
   (c8_load_transfer (some kSampleA) 8).1 (by decide),
   (c8_load_transfer (some kSampleA) 7).2 (by decide)⟩

/-- C2: with the public-key bit selected, `oqsx_match` returns false
whenever both keys have a public key present, and whenever the algorithm
names differ. -/
theorem c2_match_public_false (k1 k2 : OQSX_KEY) (selection : Nat)
    (hsel : selection &&& OSSL_KEYMGMT_SELECT_PUBLIC_KEY ≠ 0)
    (h : (k1.pubkey.isSome = true ∧ k2.pubkey.isSome = true) ∨ k1.oqs_name ≠ k2.oqs_name) :
    oqsx_match k1 k2 selection = false := by
  have hb : (selection &&& OSSL_KEYMGMT_SELECT_PUBLIC_KEY != 0) = true := by
    simpa [bne_iff_ne] using hsel
  simp only [oqsx_match, hb, if_true]
  rcases h with ⟨h1, h2⟩ | hne
  · simp [h1, h2]
  · have hn : (k1.oqs_name == k2.oqs_name) = false := by
      simpa using hne
    simp [hn]

/-- C2 witness: a key matched against itself on the public-key bit, both
sides holding a public key, yields false. -/
theorem c2_match_public_false_witness :
    OSSL_KEYMGMT_SELECT_PUBLIC_KEY &&& OSSL_KEYMGMT_SELECT_PUBLIC_KEY ≠ 0 ∧
    kSampleA.pubkey.isSome = true ∧
    oqsx_match kSampleA kSampleA OSSL_KEYMGMT_SELECT_PUBLIC_KEY = false :=
  ⟨by decide, by decide,
   c2_match_public_false kSampleA kSampleA OSSL_KEYMGMT_SELECT_PUBLIC_KEY
     (by decide) (Or.inl ⟨by decide, by decide⟩)⟩

/-- C10: `oqsx_import` with a selection whose domain/other-parameter bits
are all clear fails and leaves the key object unchanged, whatever the
parameter set contains. -/
theorem c10_import_param_bits_clear (k : OQSX_KEY) (selection : Nat)
    (params : List OSSL_PARAM)
    (h : selection &&& OSSL_KEYMGMT_SELECT_ALL_PARAMETERS = 0) :
    oqsx_import (some k) selection params = (0, some k) := by
  simp [oqsx_import, h]

/-- C10 witness: a keypair-only selection with a well-formed public-key
parameter set still fails and leaves the fresh key unchanged. -/
theorem c10_import_param_bits_clear_witness :
    OSSL_KEYMGMT_SELECT_KEYPAIR &&& OSSL_KEYMGMT_SELECT_ALL_PARAMETERS = 0 ∧
    oqsx_import (some kSampleFresh) OSSL_KEYMGMT_SELECT_KEYPAIR paramsSamplePub =
      (0, some kSampleFresh) :=
  ⟨by decide,
   c10_import_param_bits_clear kSampleFresh OSSL_KEYMGMT_SELECT_KEYPAIR
     paramsSamplePub (by decide)⟩

/-- C6: `oqsx_export` on a NULL key handle, or when either allocation
(`OSSL_PARAM_BLD_new` or `OSSL_PARAM_BLD_to_param`) fails, returns 0 and
never invokes the sink callback. -/
theorem c6_export_failure_no_callback (keydata : Option OQSX_KEY) (selection : Nat)
    (bldNewOk bldToParamOk setOctetOk : Bool) (cbRet : Nat)
    (h : keydata = none ∨ bldNewOk = false ∨ bldToParamOk = false) :
    oqsx_export keydata selection bldNewOk bldToParamOk setOctetOk cbRet =
      { ret := 0, delivered := [] } := by
  rcases h with h | h | h
  · rw [h]; rfl
  · cases keydata <;> simp [oqsx_export, h]
  · cases keydata <;> cases bldNewOk <;>
      simp [oqsx_export, OSSL_PARAM_locate, h]

/-- C6 witness: export on a NULL key returns 0 with no callback
invocation. -/
theorem c6_export_failure_no_callback_witness :
    oqsx_export none OSSL_KEYMGMT_SELECT_KEYPAIR true true true 1 =
      { ret := 0, delivered := [] } :=
  c6_export_failure_no_callback none OSSL_KEYMGMT_SELECT_KEYPAIR true true true 1
    (Or.inl rfl)

/-- C4: at a private-key-only selection, `oqsx_match` on well-formed keys
returns true iff the private keys are present-or-absent identically, the
algorithm names are equal, and the bytes agree when both are present; in
particular a key always matches itself on the private-key bit. -/
theorem c4_match_private_iff (reg : String → Nat × Nat) (k1 k2 : OQSX_KEY)
    (h1 : keyWF reg k1 = true) (h2 : keyWF reg k2 = true) :
    (oqsx_match k1 k2 OSSL_KEYMGMT_SELECT_PRIVATE_KEY = true ↔
      (k1.privkey.isSome = k2.privkey.isSome ∧ k1.oqs_name = k2.oqs_name ∧
       bothPresentBytesEq k1.privkey k2.privkey = true)) ∧
    oqsx_match k1 k1 OSSL_KEYMGMT_SELECT_PRIVATE_KEY = true := by
  constructor
  · rw [oqsx_match_private_unfold]
    simp only [keyWF, Bool.and_eq_true, beq_iff_eq] at h1 h2
    obtain ⟨⟨⟨-, hl1⟩, -⟩, hb1⟩ := h1
    obtain ⟨⟨⟨-, hl2⟩, -⟩, hb2⟩ := h2
    by_cases hnm : k1.oqs_name = k2.oqs_name
    · have hbe : (k1.oqs_name == k2.oqs_name) = true := by simp [hnm]
      rcases hp1 : k1.privkey with _ | b1 <;> rcases hp2 : k2.privkey with _ | b2
      · simp [hp1, hp2, hbe, hnm, bothPresentBytesEq]
      · simp [hp1, hp2, hbe]
      · simp [hp1, hp2, hbe]
      · rw [hp1] at hb1
        rw [hp2] at hb2
        simp only [bufLenOk, beq_iff_eq] at hb1 hb2
        have hll : k1.privkeylen = k2.privkeylen := by rw [hl1, hl2, hnm]
        have e1 : b1.take k1.privkeylen = b1 := by
          rw [← hb1]; simp
        have e2 : b2.take k1.privkeylen = b2 := by
          rw [hll, ← hb2]; simp
        simp [hp1, hp2, hbe, hnm, bothPresentBytesEq, cryptoMemcmpEq, e1, e2]
    · have hbe : (k1.oqs_name == k2.oqs_name) = false := by simpa using hnm
      simp [hbe, hnm]
  · rw [oqsx_match_private_unfold]
    cases hp : k1.privkey <;> simp [hp, cryptoMemcmpEq]

/-- C4 witness: concrete well-formed keys. -/
theorem c4_match_private_iff_witness :
    keyWF regSample kSampleA = true ∧ keyWF regSample kSampleFresh = true ∧
    ((oqsx_match kSampleA kSampleFresh OSSL_KEYMGMT_SELECT_PRIVATE_KEY = true ↔
      (kSampleA.privkey.isSome = kSampleFresh.privkey.isSome ∧
       kSampleA.oqs_name = kSampleFresh.oqs_name ∧
       bothPresentBytesEq kSampleA.privkey kSampleFresh.privkey = true)) ∧
     oqsx_match kSampleA kSampleA OSSL_KEYMGMT_SELECT_PRIVATE_KEY = true) :=
  ⟨by decide, by decide,
   c4_match_private_iff regSample kSampleA kSampleFresh (by decide) (by decide)⟩

/-- C3: a successful `oqsx_set_params` call that supplies an
encoded-public-key value leaves the key without a private key: `Has` on the
private-key bit afterwards is false. -/
theorem c3_set_params_encoded_pub_erases_priv (key : OQSX_KEY)
    (params : List OSSL_PARAM) (strdupOk : Bool)
    (_hpriv : key.privkey.isSome = true)
    (hsupplied : (OSSL_PARAM_locate params OSSL_PKEY_PARAM_ENCODED_PUBLIC_KEY).isSome = true)
    (hok : (oqsx_set_params key params strdupOk).1 = 1) :
    oqsx_has (some (oqsx_set_params key params strdupOk).2)
      OSSL_KEYMGMT_SELECT_PRIVATE_KEY = false := by
  rw [oqsx_has_private_eq]
  rcases hloc : OSSL_PARAM_locate params OSSL_PKEY_PARAM_ENCODED_PUBLIC_KEY with _ | p
  · rw [hloc] at hsupplied; simp at hsupplied
  · simp only [oqsx_set_params, hloc] at hok ⊢
    cases hcond : (p.data_size != key.pubkeylen || p.data_type != OSSL_PARAM_OCTET_STRING)
    · simp only [hcond, Bool.false_eq_true, if_false] at hok ⊢
      rw [oqsx_set_params_properties_privkey]
      rfl
    · simp [hcond] at hok

/-- C3 witness: a key with a private key, given a well-formed encoded
public key, succeeds and afterwards has no private key. -/
theorem c3_set_params_encoded_pub_erases_priv_witness :
    kSampleA.privkey.isSome = true ∧
    (OSSL_PARAM_locate paramsSampleGoodEnc OSSL_PKEY_PARAM_ENCODED_PUBLIC_KEY).isSome = true ∧
    (oqsx_set_params kSampleA paramsSampleGoodEnc true).1 = 1 ∧
    oqsx_has (some (oqsx_set_params kSampleA paramsSampleGoodEnc true).2)
      OSSL_KEYMGMT_SELECT_PRIVATE_KEY = false :=
  ⟨by decide, by decide, by decide,
   c3_set_params_encoded_pub_erases_priv kSampleA paramsSampleGoodEnc true
     (by decide) (by decide) (by decide)⟩

/-- C7: an encoded-public-key parameter whose byte length differs from the
key's declared public length makes `oqsx_set_params` fail with the key
object entirely unchanged. -/
theorem c7_set_params_length_mismatch (key : OQSX_KEY) (params : List OSSL_PARAM)
    (strdupOk : Bool) (p : OSSL_PARAM)
    (hloc : OSSL_PARAM_locate params OSSL_PKEY_PARAM_ENCODED_PUBLIC_KEY = some p)
    (hlen : p.data_size ≠ key.pubkeylen) :
    oqsx_set_params key params strdupOk = (0, key) := by
  have hb : (p.data_size != key.pubkeylen) = true := by
    simpa [bne_iff_ne] using hlen
  simp [oqsx_set_params, hloc, hb]

/-- C7 witness: a one-byte encoded public key against a declared length of
two fails and leaves the key unchanged. -/
theorem c7_set_params_length_mismatch_witness :
    OSSL_PARAM_locate paramsSampleShortEnc OSSL_PKEY_PARAM_ENCODED_PUBLIC_KEY =
      some pSampleShortEnc ∧
    pSampleShortEnc.data_size ≠ kSampleA.pubkeylen ∧
    oqsx_set_params kSampleA paramsSampleShortEnc true = (0, kSampleA) :=
  ⟨by decide, by decide,
   c7_set_params_length_mismatch kSampleA paramsSampleShortEnc true pSampleShortEnc
     (by decide) (by decide)⟩

/-- C1: the export/import round trip does NOT reproduce the key bytes.
`oqsx_export` locates the pub/priv parameter names in the still-NULL
`params` array, so nothing is pushed into the builder: the callback
receives the empty parameter set, export nevertheless reports success, and
no delivered parameter set can repopulate a freshly constructed key of the
same algorithm, although the exported key holds public bytes. -/
theorem c1_roundtrip_code_bug :
    oqsx_export (some kSampleA) OSSL_KEYMGMT_SELECT_KEYPAIR true true true 1 =
      { ret := 1, delivered := [[]] } ∧
    (∀ ps ∈ (oqsx_export (some kSampleA) OSSL_KEYMGMT_SELECT_KEYPAIR true true true 1).delivered,
      oqsx_key_fromdata kSampleFresh ps = none) ∧
    kSampleA.pubkey = some [1, 2] ∧ kSampleA.privkey = some [3] := by
  decide
